import Mathlib

/-
Shallow embedding of the ECommerceAWS repository's request handlers and API
stack declarations.

Sources embedded here:
  - src/lambda/products/productEventsFunction.ts
      (the product-events writer DynamoDbHandler.createEvent, and the products
       API handler: ApiGatewayHandler plus its DynamoDbHandler over the
       products table)
  - src/lambda/orders/ordersFunction.ts
      (the orders API handler: ApiGatewayHandler plus its DynamoDbHandler over
       the orders and products tables)
  - src/lib/stacks/ecommerceApi-stack.ts (route and validator declarations)

Modelling conventions:
  - A DynamoDB table is a list of items; get is find? on the key, put is a
    key-replacing insert, delete filters the key out.  Scan and query order
    is unspecified by the provider, so any coherent list representation of
    the key-value map is faithful.
  - JS numbers that hold integers (prices, epoch-millisecond timestamps,
    status codes) are Int.  The JS double-bitwise-not operator is embedded
    as ToInt32 (signed 32-bit truncation), its ECMAScript semantics.
  - Nondeterministic inputs of the code (uuid v4, Date.now) are explicit
    parameters of the embedding.
  - JSON response bodies are an inductive datatype mirroring exactly the
    object shapes passed to createResponse in the source.
  - Fields the source reads through a non-null assertion (event.body!,
    pathParameters!.id) are total fields of the event record, holding the
    already-parsed value; queryStringParameters, which the source genuinely
    branches on against null, stays an Option.
  - Thrown errors caught by a route's try/catch are an Except String value
    carrying the thrown message; the DynamoDB conditional-write failure
    (ConditionalCheckFailedException) is an Option none.
-/

/-- Product record, from the Product interface of
src/lambda/products/productEventsFunction.ts (identical in
src/lambda/orders/ordersFunction.ts). -/
structure Product where
  id : String
  productName : String
  code : String
  price : Int
  model : String
  productUrl : String
deriving DecidableEq, Repr

/-- PaymentType enum of ordersFunction.ts. -/
inductive PaymentType where
  | CASH
  | DEBIT_CARD
  | CREDIT_CARD
deriving DecidableEq, Repr

/-- ShippingType enum of ordersFunction.ts. -/
inductive ShippingType where
  | ECONOMIC
  | URGENT
deriving DecidableEq, Repr

/-- CarrierType enum of ordersFunction.ts. -/
inductive CarrierType where
  | CORREIOS
  | FEDEX
deriving DecidableEq, Repr

/-- Shipping sub-record (the shipping field of OrderRequest and Order). -/
structure Shipping where
  type : ShippingType
  carrier : CarrierType
deriving DecidableEq, Repr

/-- Billing sub-record (the billing field of Order and OrderResponse). -/
structure Billing where
  payment : PaymentType
  totalPrice : Int
deriving DecidableEq, Repr

/-- OrderProduct record of ordersFunction.ts; OrderProductResponse has the
same two fields and is embedded by this same type. -/
structure OrderProduct where
  code : String
  price : Int
deriving DecidableEq, Repr

/-- OrderRequest record of ordersFunction.ts (the parsed POST /orders body). -/
structure OrderRequest where
  email : String
  productIds : List String
  payment : PaymentType
  shipping : Shipping
deriving DecidableEq, Repr

/-- Order record of ordersFunction.ts, the item stored in the orders table:
partition key pk, sort key sk, plus embedded sub-records. -/
structure Order where
  pk : String
  sk : String
  createdAt : Int
  shipping : Shipping
  billing : Billing
  products : Option (List OrderProduct)
deriving DecidableEq, Repr

/-- OrderResponse record of ordersFunction.ts (the shape returned to the
client by convertToOrderResponse). -/
structure OrderResponse where
  email : String
  id : String
  createdAt : Int
  billing : Billing
  shipping : Shipping
  products : Option (List OrderProduct)
deriving DecidableEq, Repr

/-- The JSON body shapes the two API handlers pass to createResponse. The
err constructor is the uniform error object with the message and the two
request identifiers (ApiGwRequestId, LambdaRequestId); empty is the null
body of a 204. -/
inductive ResponseBody where
  | err (message : String) (apiGwRequestId : String) (lambdaRequestId : String)
  | product (p : Product)
  | products (ps : List Product)
  | orderResponse (o : OrderResponse)
  | orderResponses (os : List OrderResponse)
  | empty
deriving DecidableEq, Repr

/-- Result of createResponse in both handlers: a status code and a JSON
body (stringification is not modelled; the body datatype mirrors the object
passed to JSON.stringify). -/
structure ApiResponse where
  statusCode : Int
  body : ResponseBody
deriving DecidableEq, Repr

/-- createResponse of both ApiGatewayHandler classes. -/
def createResponse (statusCode : Int) (body : ResponseBody) : ApiResponse :=
  { statusCode := statusCode, body := body }

/-- Lookup in the products table by the key attribute id, the common core of
DocumentClient.get against the products table. -/
def findProduct (table : List Product) (productId : String) : Option Product :=
  table.find? (fun p => p.id == productId)

/-- DocumentClient.put against the products table: replaces the item with
the same key, if any, and stores the new item. -/
def putProduct (table : List Product) (p : Product) : List Product :=
  p :: table.filter (fun q => q.id != p.id)

/-- DynamoDbHandler.getAllProducts of productEventsFunction.ts (a table
scan). -/
def ProductsDdb.getAllProducts (table : List Product) : List Product :=
  table

/-- DynamoDbHandler.getProductById of productEventsFunction.ts: returns the
item when present, otherwise throws the message Product not found. -/
def ProductsDdb.getProductById (table : List Product) (productId : String) :
    Except String Product :=
  match findProduct table productId with
  | some p => .ok p
  | none => .error "Product not found"

/-- DynamoDbHandler.createProduct of productEventsFunction.ts: puts the item
and returns it, together with the new table state. -/
def ProductsDdb.createProduct (table : List Product) (product : Product) :
    List Product × Product :=
  (putProduct table product, product)

/-- The item produced by the UpdateExpression of
DynamoDbHandler.updateProduct: the five updatable attributes are set to the
request values; the key attribute id stays the path id (the source also
reassembles exactly this value from Attributes plus productId). -/
def updatedProduct (productId : String) (product : Product) : Product :=
  { id := productId
  , productName := product.productName
  , code := product.code
  , price := product.price
  , model := product.model
  , productUrl := product.productUrl }

/-- Effect of the conditional update on the stored table: the item whose key
matches has its five updatable attributes replaced. -/
def setProductAttributes (table : List Product) (productId : String)
    (product : Product) : List Product :=
  table.map (fun q => if q.id == productId then updatedProduct productId product else q)

/-- DynamoDbHandler.updateProduct of productEventsFunction.ts: a conditional
write guarded by attribute_exists(id). When no item with the key exists the
provider raises ConditionalCheckFailedException (none here) and nothing is
written; otherwise the five attributes are set and the updated item is
returned. -/
def ProductsDdb.updateProduct (table : List Product) (productId : String)
    (product : Product) : Option (List Product × Product) :=
  match findProduct table productId with
  | some _ => some (setProductAttributes table productId product, updatedProduct productId product)
  | none => none

/-- DynamoDbHandler.deleteProduct of productEventsFunction.ts: delete with
ReturnValues ALL_OLD; throws Product not found when no previous item
existed. -/
def ProductsDdb.deleteProduct (table : List Product) (productId : String) :
    Except String (List Product × Product) :=
  match findProduct table productId with
  | some old => .ok (table.filter (fun q => q.id != productId), old)
  | none => .error "Product not found"

/-- Lookup in the orders table by the composite key (pk, sk). -/
def findOrder (table : List Order) (email : String) (orderId : String) :
    Option Order :=
  table.find? (fun o => o.pk == email && o.sk == orderId)

/-- DocumentClient.put against the orders table. -/
def putOrderItem (table : List Order) (o : Order) : List Order :=
  o :: table.filter (fun x => !(x.pk == o.pk && x.sk == o.sk))

/-- DynamoDbHandler.createOrder of ordersFunction.ts: puts the order and
returns it. -/
def OrdersDdb.createOrder (table : List Order) (order : Order) :
    List Order × Order :=
  (putOrderItem table order, order)

/-- DynamoDbHandler.getAllOrders of ordersFunction.ts (a table scan). -/
def OrdersDdb.getAllOrders (table : List Order) : List Order :=
  table

/-- DynamoDbHandler.getOrdersByEmail of ordersFunction.ts (a query on the
partition key). -/
def OrdersDdb.getOrdersByEmail (table : List Order) (email : String) :
    List Order :=
  table.filter (fun o => o.pk == email)

/-- DynamoDbHandler.getOrdersByEmailAndOrderId of ordersFunction.ts: returns
the item when present, otherwise throws Order not found. -/
def OrdersDdb.getOrdersByEmailAndOrderId (table : List Order) (email : String)
    (orderId : String) : Except String Order :=
  match findOrder table email orderId with
  | some o => .ok o
  | none => .error "Order not found"

/-- DynamoDbHandler.deleteOrder of ordersFunction.ts: delete with
ReturnValues ALL_OLD; throws Order not found when no previous item
existed. -/
def OrdersDdb.deleteOrder (table : List Order) (email : String)
    (orderId : String) : Except String (List Order × Order) :=
  match findOrder table email orderId with
  | some old => .ok (table.filter (fun x => !(x.pk == email && x.sk == orderId)), old)
  | none => .error "Order not found"

/-- DynamoDbHandler.getProductsByIds of ordersFunction.ts: a batch get over
the requested keys returning the items that exist. -/
def OrdersDdb.getProductsByIds (productsTable : List Product)
    (productIds : List String) : List Product :=
  productIds.filterMap (findProduct productsTable)

/-- Query string parameters of the orders API (email, orderId); either may
be absent. -/
structure QueryParams where
  email : Option String
  orderId : Option String
deriving DecidableEq, Repr

/-- JavaScript truthiness of an optional string: absent and the empty
string are falsy. -/
def truthyStr : Option String → Bool
  | none => false
  | some s => s != ""

/-- The part of an APIGatewayProxyEvent the orders handler reads: resource,
httpMethod, the parsed POST body (read through event.body! only on the POST
branch) and the query string parameters. -/
structure OrdersApiEvent where
  resource : String
  httpMethod : String
  body : OrderRequest
  queryStringParameters : Option QueryParams
deriving DecidableEq, Repr

/-- The part of an APIGatewayProxyEvent the products handler reads:
resource, httpMethod, the path parameter id (read through
pathParameters!.id on the products-by-id branches) and the parsed body
(read through event.body! on POST and PUT). -/
structure ProductsApiEvent where
  resource : String
  httpMethod : String
  pathId : String
  body : Product
deriving DecidableEq, Repr

/-- ApiGatewayHandler.buildOrder of ordersFunction.ts: the forEach loop
accumulates the total price and the (code, price) pairs of the fetched
products; pk is the request email, sk the freshly generated uuid, createdAt
the value of Date.now (both passed in as parameters of the embedding). -/
def OrdersApi.buildOrder (orderRequest : OrderRequest) (products : List Product)
    (newOrderId : String) (now : Int) : Order :=
  let orderProducts := products.map (fun p => OrderProduct.mk p.code p.price)
  let totalPrice := products.foldl (fun acc p => acc + p.price) 0
  { pk := orderRequest.email
  , sk := newOrderId
  , createdAt := now
  , billing := { payment := orderRequest.payment, totalPrice := totalPrice }
  , shipping := { type := orderRequest.shipping.type, carrier := orderRequest.shipping.carrier }
  , products := some orderProducts }

/-- ApiGatewayHandler.convertToOrderResponse of ordersFunction.ts. The
products field of the response is undefined when the rebuilt product list is
empty (number truthiness of orderProducts.length). -/
def OrdersApi.convertToOrderResponse (order : Order) : OrderResponse :=
  let orderProducts := (order.products.getD []).map (fun p => OrderProduct.mk p.code p.price)
  { email := order.pk
  , id := order.sk
  , createdAt := order.createdAt
  , products := if orderProducts.length != 0 then some orderProducts else none
  , billing := { payment := order.billing.payment, totalPrice := order.billing.totalPrice }
  , shipping := { type := order.shipping.type, carrier := order.shipping.carrier } }

/-- ApiGatewayHandler.createOrder of ordersFunction.ts: fetch the requested
products; when the count of fetched products equals the count of requested
ids build and store the order and answer 201 with its response shape,
otherwise store nothing and answer 404 with Some product was not found. -/
def OrdersApi.createOrder (productsTable : List Product) (ordersTable : List Order)
    (orderRequest : OrderRequest) (apiRequestId : String) (lambdaRequestId : String)
    (newOrderId : String) (now : Int) : ApiResponse × List Order :=
  let products := OrdersDdb.getProductsByIds productsTable orderRequest.productIds
  if products.length == orderRequest.productIds.length then
    let order := OrdersApi.buildOrder orderRequest products newOrderId now
    let r := OrdersDdb.createOrder ordersTable order
    (createResponse 201 (.orderResponse (OrdersApi.convertToOrderResponse r.2)), r.1)
  else
    (createResponse 404 (.err "Some product was not found" apiRequestId lambdaRequestId), ordersTable)

/-- ApiGatewayHandler.getOrders of ordersFunction.ts: no query parameters
scans all orders; a truthy email with a truthy orderId looks a single order
up (404 with the thrown message when absent); a truthy email alone queries
by email; anything else is a 400 Bad request. The table is never written. -/
def OrdersApi.getOrders (ordersTable : List Order) (qsp : Option QueryParams)
    (apiRequestId : String) (lambdaRequestId : String) : ApiResponse :=
  match qsp with
  | none =>
    createResponse 200 (.orderResponses ((OrdersDdb.getAllOrders ordersTable).map OrdersApi.convertToOrderResponse))
  | some q =>
    if truthyStr q.email then
      if truthyStr q.orderId then
        match OrdersDdb.getOrdersByEmailAndOrderId ordersTable (q.email.getD "") (q.orderId.getD "") with
        | .ok order => createResponse 200 (.orderResponse (OrdersApi.convertToOrderResponse order))
        | .error msg => createResponse 404 (.err msg apiRequestId lambdaRequestId)
      else
        createResponse 200 (.orderResponses ((OrdersDdb.getOrdersByEmail ordersTable (q.email.getD "")).map OrdersApi.convertToOrderResponse))
    else
      createResponse 400 (.err "Bad request" apiRequestId lambdaRequestId)

/-- ApiGatewayHandler.deleteOrder of ordersFunction.ts: with truthy email
and orderId parameters attempts the delete, answering 204 on success and
404 with the thrown message (Order not found) when the order was absent;
otherwise 400 Bad request. -/
def OrdersApi.deleteOrder (ordersTable : List Order) (qsp : Option QueryParams)
    (apiRequestId : String) (lambdaRequestId : String) : ApiResponse × List Order :=
  match qsp with
  | some q =>
    if truthyStr q.email && truthyStr q.orderId then
      match OrdersDdb.deleteOrder ordersTable (q.email.getD "") (q.orderId.getD "") with
      | .ok r => (createResponse 204 .empty, r.1)
      | .error msg => (createResponse 404 (.err msg apiRequestId lambdaRequestId), ordersTable)
    else
      (createResponse 400 (.err "Bad request" apiRequestId lambdaRequestId), ordersTable)
  | none =>
    (createResponse 400 (.err "Bad request" apiRequestId lambdaRequestId), ordersTable)

/-- ApiGatewayHandler.handler of ordersFunction.ts: dispatch on (resource,
httpMethod); every unhandled combination answers 400 Bad request carrying
the two request identifiers. -/
def OrdersApi.handler (productsTable : List Product) (ordersTable : List Order)
    (event : OrdersApiEvent) (apiRequestId : String) (lambdaRequestId : String)
    (newOrderId : String) (now : Int) : ApiResponse × List Order :=
  if event.resource == "/orders" then
    if event.httpMethod == "GET" then
      (OrdersApi.getOrders ordersTable event.queryStringParameters apiRequestId lambdaRequestId, ordersTable)
    else if event.httpMethod == "POST" then
      OrdersApi.createOrder productsTable ordersTable event.body apiRequestId lambdaRequestId newOrderId now
    else if event.httpMethod == "DELETE" then
      OrdersApi.deleteOrder ordersTable event.queryStringParameters apiRequestId lambdaRequestId
    else
      (createResponse 400 (.err "Bad request" apiRequestId lambdaRequestId), ordersTable)
  else
    (createResponse 400 (.err "Bad request" apiRequestId lambdaRequestId), ordersTable)

/-- ApiGatewayHandler.createProduct of productEventsFunction.ts: the body's
id is overwritten with a freshly generated uuid before the item is stored,
and the stored product is answered with 201. (The parallel invocation of
the product-events function writes to a different table and is covered by
the event-writer embedding below.) -/
def ProductsApi.createProduct (table : List Product) (body : Product)
    (newProductId : String) : ApiResponse × List Product :=
  let product := { body with id := newProductId }
  let r := ProductsDdb.createProduct table product
  (createResponse 201 (.product r.2), r.1)

/-- ApiGatewayHandler.getAllProducts of productEventsFunction.ts. -/
def ProductsApi.getAllProducts (table : List Product) : ApiResponse × List Product :=
  (createResponse 200 (.products (ProductsDdb.getAllProducts table)), table)

/-- ApiGatewayHandler.getProductById of productEventsFunction.ts: 200 with
the product, or 404 with the thrown message and both request identifiers. -/
def ProductsApi.getProductById (table : List Product) (productId : String)
    (apiRequestId : String) (lambdaRequestId : String) : ApiResponse × List Product :=
  match ProductsDdb.getProductById table productId with
  | .ok p => (createResponse 200 (.product p), table)
  | .error msg => (createResponse 404 (.err msg apiRequestId lambdaRequestId), table)

/-- ApiGatewayHandler.updateProduct of productEventsFunction.ts: 200 with
the updated product, or, when the conditional write fails because the item
does not exist, 404 with the fixed message Product not found. -/
def ProductsApi.updateProduct (table : List Product) (productId : String)
    (body : Product) (apiRequestId : String) (lambdaRequestId : String) :
    ApiResponse × List Product :=
  match ProductsDdb.updateProduct table productId body with
  | some r => (createResponse 200 (.product r.2), r.1)
  | none => (createResponse 404 (.err "Product not found" apiRequestId lambdaRequestId), table)

/-- ApiGatewayHandler.deleteProduct of productEventsFunction.ts: 204 with a
null body, or 404 with the thrown message and both request identifiers. -/
def ProductsApi.deleteProduct (table : List Product) (productId : String)
    (apiRequestId : String) (lambdaRequestId : String) : ApiResponse × List Product :=
  match ProductsDdb.deleteProduct table productId with
  | .ok r => (createResponse 204 .empty, r.1)
  | .error msg => (createResponse 404 (.err msg apiRequestId lambdaRequestId), table)

/-- ApiGatewayHandler.handler of productEventsFunction.ts: dispatch on
(resource, httpMethod); every unhandled combination answers 400 Bad request
carrying the two request identifiers. -/
def ProductsApi.handler (table : List Product) (event : ProductsApiEvent)
    (apiRequestId : String) (lambdaRequestId : String) (newProductId : String) :
    ApiResponse × List Product :=
  if event.resource == "/products" then
    if event.httpMethod == "GET" then
      ProductsApi.getAllProducts table
    else if event.httpMethod == "POST" then
      ProductsApi.createProduct table event.body newProductId
    else
      (createResponse 400 (.err "Bad request" apiRequestId lambdaRequestId), table)
  else if event.resource == "/products/{id}" then
    let productId := event.pathId
    if event.httpMethod == "GET" then
      ProductsApi.getProductById table productId apiRequestId lambdaRequestId
    else if event.httpMethod == "PUT" then
      ProductsApi.updateProduct table productId event.body apiRequestId lambdaRequestId
    else if event.httpMethod == "DELETE" then
      ProductsApi.deleteProduct table productId apiRequestId lambdaRequestId
    else
      (createResponse 400 (.err "Bad request" apiRequestId lambdaRequestId), table)
  else
    (createResponse 400 (.err "Bad request" apiRequestId lambdaRequestId), table)

/-- ProductEventType enum of productEventsFunction.ts. -/
inductive ProductEventType where
  | CREATED
  | UPDATED
  | DELETED
deriving DecidableEq, Repr

/-- String value of the ProductEventType enum members. -/
def ProductEventType.value : ProductEventType → String
  | .CREATED => "PRODUCT_CREATED"
  | .UPDATED => "PRODUCT_UPDATED"
  | .DELETED => "PRODUCT_DELETED"

/-- ProductEvent record of productEventsFunction.ts (the invocation payload
of the product-events function). -/
structure ProductEvent where
  requestId : String
  eventType : ProductEventType
  productId : String
  productCode : String
  productPrice : Int
  email : String
deriving DecidableEq, Repr

/-- The item DynamoDbHandler.createEvent puts into the events table. The
info sub-object is flattened into the two info-prefixed fields. -/
structure EventItem where
  pk : String
  sk : String
  email : String
  createdAt : Int
  requestId : String
  eventType : String
  infoProductId : String
  infoPrice : Int
  ttl : Int
deriving DecidableEq, Repr

/-- ECMAScript ToInt32, the effect of the double-bitwise-not operator on an
integral JS number: reduce modulo 2 to the 32nd and map into the signed
32-bit range. -/
def toInt32 (n : Int) : Int :=
  (n + 2 ^ 31) % 2 ^ 32 - 2 ^ 31

/-- DynamoDbHandler.createEvent of the product-events writer in
productEventsFunction.ts: the stored item, as a function of the incoming
event and of the write time in milliseconds (Date.now, a parameter of the
embedding). The ttl is the double-bitwise-not of timestamp plus
(1000 + 5 * 60). -/
def EventsFn.createEvent (event : ProductEvent) (timestamp : Int) : EventItem :=
  let ttl := toInt32 (timestamp + (1000 + 5 * 60))
  { pk := "#product_" ++ event.productCode
  , sk := event.eventType.value ++ "#" ++ toString timestamp
  , email := event.email
  , createdAt := timestamp
  , requestId := event.requestId
  , eventType := event.eventType.value
  , infoProductId := event.productId
  , infoPrice := event.productPrice
  , ttl := ttl }

/-- One method declaration of the API stack: resource path, HTTP method,
and whether a request body model (schema validation of the JSON body) is
attached to the method. -/
structure RouteDecl where
  path : String
  method : String
  hasRequestBodyModel : Bool
deriving DecidableEq, Repr

/-- createProductsApiResources of ecommerceApi-stack.ts: POST and GET on
/products, and GET, PUT, DELETE on the id sub-resource; POST and PUT carry
the product request validator with its body model. -/
def productsRouteDecls : List RouteDecl :=
  [ { path := "/products", method := "POST", hasRequestBodyModel := true }
  , { path := "/products", method := "GET", hasRequestBodyModel := false }
  , { path := "/products/{id}", method := "GET", hasRequestBodyModel := false }
  , { path := "/products/{id}", method := "PUT", hasRequestBodyModel := true }
  , { path := "/products/{id}", method := "DELETE", hasRequestBodyModel := false } ]

/-- createOrdersApiResources of ecommerceApi-stack.ts: POST, GET, DELETE on
/orders; POST carries the order body model, DELETE a query-parameter
validator only (no body model). -/
def ordersRouteDecls : List RouteDecl :=
  [ { path := "/orders", method := "POST", hasRequestBodyModel := true }
  , { path := "/orders", method := "GET", hasRequestBodyModel := false }
  , { path := "/orders", method := "DELETE", hasRequestBodyModel := false } ]

/-- Modelled from the spec: the order-events fetch route. The repository
ships an order-events fetch handler that serves GET on /orders/events and a
deployment entrypoint that passes an orderEventsFetchHandler to the API
stack, but the API-stack revision declaring that resource is not among the
sources; the spec lists /orders/events among the exposed routes, and its
only handled method is GET with no request body. -/
def orderEventsRouteDecls : List RouteDecl :=
  [ { path := "/orders/events", method := "GET", hasRequestBodyModel := false } ]

/-- All method declarations of the ECommerce API stack. -/
def ecommerceApiRouteDecls : List RouteDecl :=
  productsRouteDecls ++ ordersRouteDecls ++ orderEventsRouteDecls

/-- The four route paths the spec names. -/
def specRoutePaths : List String :=
  ["/products", "/products/{id}", "/orders", "/orders/events"]

/-- Sample product stored in a table (concrete data for witnesses and
counterexamples). -/
def prodA : Product :=
  { id := "p1", productName := "Laptop", code := "C1", price := 100
  , model := "M1", productUrl := "u1" }

/-- Sample request body whose id field is junk the handler must ignore. -/
def prodB : Product :=
  { id := "junk", productName := "Phone", code := "C2", price := 50
  , model := "M2", productUrl := "u2" }

/-- Sample product event (concrete data for counterexamples). -/
def evA : ProductEvent :=
  { requestId := "r1", eventType := .CREATED, productId := "P1"
  , productCode := "C1", productPrice := 10, email := "a@b" }

/-- Sample product event differing from evA only in the product id. -/
def evB : ProductEvent :=
  { requestId := "r1", eventType := .CREATED, productId := "P2"
  , productCode := "C1", productPrice := 10, email := "a@b" }

/-- Sample order request asking for the stored product p1. -/
def reqA : OrderRequest :=
  { email := "a@b", productIds := ["p1"], payment := .CASH
  , shipping := { type := .ECONOMIC, carrier := .CORREIOS } }

/-- Sample order request asking for an absent product. -/
def reqB : OrderRequest :=
  { email := "a@b", productIds := ["zz"], payment := .CASH
  , shipping := { type := .ECONOMIC, carrier := .CORREIOS } }

/-- A put stores the item under its key: looking the key up afterwards
returns the stored item. -/
theorem findProduct_putProduct (t : List Product) (p : Product) :
    findProduct (putProduct t p) p.id = some p := by
  unfold findProduct putProduct
  exact List.find?_cons_of_pos _ (by simp)

/-- After the conditional update fires on a present key, looking that key
up returns the item with the five attributes replaced. -/
theorem findProduct_setProductAttributes (t : List Product) (productId : String)
    (p : Product) (old : Product) (h : findProduct t productId = some old) :
    findProduct (setProductAttributes t productId p) productId =
      some (updatedProduct productId p) := by
  induction t with
  | nil => simp [findProduct] at h
  | cons q rest ih =>
    by_cases hq : q.id = productId
    · have hmap : setProductAttributes (q :: rest) productId p =
          updatedProduct productId p :: setProductAttributes rest productId p := by
        simp [setProductAttributes, hq]
      rw [hmap]
      unfold findProduct
      exact List.find?_cons_of_pos _ (by simp [updatedProduct])
    · have hmap : setProductAttributes (q :: rest) productId p =
          q :: setProductAttributes rest productId p := by
        simp [setProductAttributes, hq]
      have h' : findProduct rest productId = some old := by
        unfold findProduct at h
        rwa [List.find?_cons_of_neg _ (by simp [hq])] at h
      rw [hmap]
      unfold findProduct
      rw [List.find?_cons_of_neg _ (by simp [hq])]
      exact ih h'

/-- A put stores the order under its composite key: looking (pk, sk) up
afterwards returns the stored order. -/
theorem findOrder_putOrderItem (t : List Order) (o : Order) :
    findOrder (putOrderItem t o) o.pk o.sk = some o := by
  unfold findOrder putOrderItem
  exact List.find?_cons_of_pos _ (by simp)

/-- The price-accumulating fold of buildOrder computes the sum of the
prices on top of its accumulator. -/
theorem foldl_price_sum (ps : List Product) (acc : Int) :
    ps.foldl (fun a p => a + p.price) acc = acc + (ps.map Product.price).sum := by
  induction ps generalizing acc with
  | nil => simp
  | cons p rest ih => simp [List.foldl_cons, ih, add_assoc]

/-- C1: a PUT on /products with an id absent from the products table
answers 404 with message Product not found and leaves the table unchanged
(the conditional write fires no partial update); with the id present, the
stored item's five updatable fields are replaced by the request's values
and 200 is answered with that item. -/
theorem updateProduct_conditional (t : List Product) (productId : String)
    (body : Product) (a l newId : String) :
    (findProduct t productId = none →
      ProductsApi.handler t ⟨"/products/{id}", "PUT", productId, body⟩ a l newId =
        (createResponse 404 (.err "Product not found" a l), t)) ∧
    (∀ old, findProduct t productId = some old →
      ProductsApi.handler t ⟨"/products/{id}", "PUT", productId, body⟩ a l newId =
        (createResponse 200 (.product (updatedProduct productId body)),
         setProductAttributes t productId body) ∧
      findProduct (setProductAttributes t productId body) productId =
        some (updatedProduct productId body)) := by
  constructor
  · intro h
    simp [ProductsApi.handler, ProductsApi.updateProduct, ProductsDdb.updateProduct, h]
  · intro old h
    refine ⟨?_, findProduct_setProductAttributes t productId body old h⟩
    simp [ProductsApi.handler, ProductsApi.updateProduct, ProductsDdb.updateProduct, h]

/-- Witness for C1: concrete runs of both branches of the conditional
update. -/
theorem updateProduct_conditional_witness :
    ProductsApi.handler [] ⟨"/products/{id}", "PUT", "p1", prodB⟩ "a" "l" "n" =
      (createResponse 404 (.err "Product not found" "a" "l"), []) ∧
    ProductsApi.handler [prodA] ⟨"/products/{id}", "PUT", "p1", prodB⟩ "a" "l" "n" =
      (createResponse 200 (.product (updatedProduct "p1" prodB)),
       setProductAttributes [prodA] "p1" prodB) := by
  exact ⟨(updateProduct_conditional [] "p1" prodB "a" "l" "n").1 (by decide),
         ((updateProduct_conditional [prodA] "p1" prodB "a" "l" "n").2 prodA (by decide)).1⟩

/-- C4: creating a product through POST on /products and then fetching it
through GET on the id sub-resource with the id assigned at creation answers
200 with a product whose fields equal those stored at creation. -/
theorem create_then_get_roundtrip (t : List Product) (body : Product)
    (a1 l1 a2 l2 newId anyPath otherId : String) (otherBody : Product) :
    (ProductsApi.handler t ⟨"/products", "POST", anyPath, body⟩ a1 l1 newId).1 =
      createResponse 201 (.product { body with id := newId }) ∧
    ProductsApi.handler (ProductsApi.handler t ⟨"/products", "POST", anyPath, body⟩ a1 l1 newId).2
        ⟨"/products/{id}", "GET", newId, otherBody⟩ a2 l2 otherId =
      (createResponse 200 (.product { body with id := newId }),
       (ProductsApi.handler t ⟨"/products", "POST", anyPath, body⟩ a1 l1 newId).2) := by
  have hput : ProductsApi.handler t ⟨"/products", "POST", anyPath, body⟩ a1 l1 newId =
      (createResponse 201 (.product { body with id := newId }),
       putProduct t { body with id := newId }) := by
    simp [ProductsApi.handler, ProductsApi.createProduct, ProductsDdb.createProduct]
  have hfind : findProduct (putProduct t { body with id := newId }) newId =
      some { body with id := newId } := by
    simpa using findProduct_putProduct t { body with id := newId }
  constructor
  · rw [hput]
  · rw [hput]
    simp [ProductsApi.handler, ProductsApi.getProductById, ProductsDdb.getProductById, hfind]

/-- C10: on POST /products the handler overwrites any id supplied in the
body with the freshly generated identifier before the item is stored, the
201 body carries the generated id, and the stored item is retrievable
under it. -/
theorem createProduct_fresh_id (t : List Product) (body : Product)
    (a l newId anyPath : String) :
    ProductsApi.handler t ⟨"/products", "POST", anyPath, body⟩ a l newId =
      (createResponse 201 (.product { body with id := newId }),
       putProduct t { body with id := newId }) ∧
    findProduct (putProduct t { body with id := newId }) newId =
      some { body with id := newId } := by
  constructor
  · simp [ProductsApi.handler, ProductsApi.createProduct, ProductsDdb.createProduct]
  · simpa using findProduct_putProduct t { body with id := newId }

/-- C5 counterexample: the partition key written by the product-events
writer does not encode the product's id: two events that differ only in
productId share the same pk, and the pk is not the product id under the
hash-prefix pattern. -/
theorem event_pk_ignores_product_id :
    (EventsFn.createEvent evA 0).pk = (EventsFn.createEvent evB 0).pk ∧
    evA.productId ≠ evB.productId ∧
    (EventsFn.createEvent evA 0).pk ≠ "#product_" ++ evA.productId := by
  exact ⟨rfl, by decide, by decide⟩

/-- C5 amended: every event record written by the product-events handler
has partition key encoding the product's code (hash product_ prefix), sort
key eventType hash timestamp, and a time-to-live attribute. -/
theorem event_record_keys_and_ttl (ev : ProductEvent) (timestamp : Int) :
    (EventsFn.createEvent ev timestamp).pk = "#product_" ++ ev.productCode ∧
    (EventsFn.createEvent ev timestamp).sk =
      ev.eventType.value ++ "#" ++ toString timestamp ∧
    (EventsFn.createEvent ev timestamp).ttl = toInt32 (timestamp + 1300) := by
  exact ⟨rfl, rfl, rfl⟩

/-- C9 counterexample: at the write time 1700000000000 (a realistic epoch
millisecond count) the stored ttl is not timestamp plus 1300; the 32-bit
truncation performed by the double-bitwise-not makes it the negative number
-807047916. -/
theorem event_ttl_not_1300ms_after_creation :
    (EventsFn.createEvent evA 1700000000000).ttl ≠ 1700000000000 + 1300 ∧
    (EventsFn.createEvent evA 1700000000000).ttl = -807047916 := by
  exact ⟨by decide, by decide⟩

/-- C9 amended: the ttl attribute equals the signed 32-bit truncation
(ECMAScript ToInt32) of timestamp plus 1300, not timestamp plus 1300
itself; for current epoch-millisecond write times the expiry mark therefore
does not lie 1300 milliseconds after creation. -/
theorem event_ttl_is_toInt32 (ev : ProductEvent) (timestamp : Int) :
    (EventsFn.createEvent ev timestamp).ttl = toInt32 (timestamp + 1300) := rfl

/-- C6: the order built from a request and the fetched products has
partition key the customer email, sort key the freshly generated
identifier, one (code, price) entry per fetched product, and billing and
shipping sub-records with billing.totalPrice the sum of the fetched
products' prices. -/
theorem buildOrder_fields (req : OrderRequest) (ps : List Product)
    (newOrderId : String) (now : Int) :
    (OrdersApi.buildOrder req ps newOrderId now).pk = req.email ∧
    (OrdersApi.buildOrder req ps newOrderId now).sk = newOrderId ∧
    (OrdersApi.buildOrder req ps newOrderId now).products =
      some (ps.map (fun p => OrderProduct.mk p.code p.price)) ∧
    (OrdersApi.buildOrder req ps newOrderId now).billing.payment = req.payment ∧
    (OrdersApi.buildOrder req ps newOrderId now).billing.totalPrice =
      (ps.map Product.price).sum ∧
    (OrdersApi.buildOrder req ps newOrderId now).shipping =
      { type := req.shipping.type, carrier := req.shipping.carrier } := by
  refine ⟨rfl, rfl, rfl, rfl, ?_, rfl⟩
  show ps.foldl (fun a p => a + p.price) 0 = _
  simpa using foldl_price_sum ps 0

/-- C7: the API stack declares exactly the paths /products, /products/(id),
/orders and /orders/events, and every body-carrying method (POST or PUT)
among the declarations carries a request body model. -/
theorem api_routes_exact :
    (specRoutePaths.all (fun p => ecommerceApiRouteDecls.any (fun r => r.path == p)) &&
     ecommerceApiRouteDecls.all (fun r => specRoutePaths.contains r.path) &&
     ecommerceApiRouteDecls.all
       (fun r => !(r.method == "POST" || r.method == "PUT") || r.hasRequestBodyModel)) = true := by
  decide

/-- C2: POST on /orders stores the built order and answers 201 exactly when
the number of fetched products equals the number of requested ids;
otherwise it stores nothing and answers 404 with Some product was not
found. -/
theorem createOrder_allOrNothing
    (pt : List Product) (ot : List Order) (req : OrderRequest)
    (a l newOrderId : String) (now : Int) (anyQsp : Option QueryParams) :
    ((OrdersDdb.getProductsByIds pt req.productIds).length = req.productIds.length →
      OrdersApi.handler pt ot ⟨"/orders", "POST", req, anyQsp⟩ a l newOrderId now =
        (createResponse 201 (.orderResponse (OrdersApi.convertToOrderResponse
            (OrdersApi.buildOrder req (OrdersDdb.getProductsByIds pt req.productIds) newOrderId now))),
         putOrderItem ot (OrdersApi.buildOrder req (OrdersDdb.getProductsByIds pt req.productIds) newOrderId now)) ∧
      findOrder (putOrderItem ot (OrdersApi.buildOrder req (OrdersDdb.getProductsByIds pt req.productIds) newOrderId now))
          req.email newOrderId =
        some (OrdersApi.buildOrder req (OrdersDdb.getProductsByIds pt req.productIds) newOrderId now)) ∧
    ((OrdersDdb.getProductsByIds pt req.productIds).length ≠ req.productIds.length →
      OrdersApi.handler pt ot ⟨"/orders", "POST", req, anyQsp⟩ a l newOrderId now =
        (createResponse 404 (.err "Some product was not found" a l), ot)) := by
  constructor
  · intro h
    constructor
    · simp [OrdersApi.handler, OrdersApi.createOrder, OrdersDdb.createOrder, h]
    · have hfo := findOrder_putOrderItem ot
        (OrdersApi.buildOrder req (OrdersDdb.getProductsByIds pt req.productIds) newOrderId now)
      simpa [OrdersApi.buildOrder] using hfo
  · intro h
    simp [OrdersApi.handler, OrdersApi.createOrder, h]

/-- Witness for C2: a concrete run of the 201 branch (every requested id
found) and of the 404 branch (an id missing). -/
theorem createOrder_allOrNothing_witness :
    OrdersApi.handler [prodA] [] ⟨"/orders", "POST", reqA, none⟩ "a" "l" "o1" 5 =
      (createResponse 201 (.orderResponse (OrdersApi.convertToOrderResponse
          (OrdersApi.buildOrder reqA (OrdersDdb.getProductsByIds [prodA] reqA.productIds) "o1" 5))),
       putOrderItem [] (OrdersApi.buildOrder reqA (OrdersDdb.getProductsByIds [prodA] reqA.productIds) "o1" 5)) ∧
    OrdersApi.handler [prodA] [] ⟨"/orders", "POST", reqB, none⟩ "a" "l" "o1" 5 =
      (createResponse 404 (.err "Some product was not found" "a" "l"), []) := by
  exact ⟨((createOrder_allOrNothing [prodA] [] reqA "a" "l" "o1" 5 none).1 (by decide)).1,
         (createOrder_allOrNothing [prodA] [] reqB "a" "l" "o1" 5 none).2 (by decide)⟩

/-- C3: a GET on the product id sub-resource for a missing product, a GET
on /orders with email and orderId of a missing order, and a DELETE on
/orders for a missing order each answer 404 with a body carrying the error
message together with the gateway request id and the function invocation
id, leaving the tables unchanged. -/
theorem notFound_responses_carry_request_ids
    (pt : List Product) (ot : List Order) (productId email orderId : String)
    (a l newId : String) (anyBody : Product) (anyReq : OrderRequest) (now : Int) :
    (findProduct pt productId = none →
      ProductsApi.handler pt ⟨"/products/{id}", "GET", productId, anyBody⟩ a l newId =
        (createResponse 404 (.err "Product not found" a l), pt)) ∧
    (email ≠ "" → orderId ≠ "" → findOrder ot email orderId = none →
      OrdersApi.handler pt ot ⟨"/orders", "GET", anyReq, some ⟨some email, some orderId⟩⟩ a l newId now =
        (createResponse 404 (.err "Order not found" a l), ot)) ∧
    (email ≠ "" → orderId ≠ "" → findOrder ot email orderId = none →
      OrdersApi.handler pt ot ⟨"/orders", "DELETE", anyReq, some ⟨some email, some orderId⟩⟩ a l newId now =
        (createResponse 404 (.err "Order not found" a l), ot)) := by
  refine ⟨?_, ?_, ?_⟩
  · intro h
    simp [ProductsApi.handler, ProductsApi.getProductById, ProductsDdb.getProductById, h]
  · intro he ho h
    simp [OrdersApi.handler, OrdersApi.getOrders, truthyStr,
          OrdersDdb.getOrdersByEmailAndOrderId, he, ho, h]
  · intro he ho h
    simp [OrdersApi.handler, OrdersApi.deleteOrder, truthyStr,
          OrdersDdb.deleteOrder, he, ho, h]

/-- Witness for C3: concrete 404 runs of all three routes against empty
tables. -/
theorem notFound_responses_carry_request_ids_witness :
    ProductsApi.handler [] ⟨"/products/{id}", "GET", "p1", prodB⟩ "a" "l" "n" =
      (createResponse 404 (.err "Product not found" "a" "l"), []) ∧
    OrdersApi.handler [] [] ⟨"/orders", "GET", reqA, some ⟨some "e", some "o"⟩⟩ "a" "l" "n" 5 =
      (createResponse 404 (.err "Order not found" "a" "l"), []) ∧
    OrdersApi.handler [] [] ⟨"/orders", "DELETE", reqA, some ⟨some "e", some "o"⟩⟩ "a" "l" "n" 5 =
      (createResponse 404 (.err "Order not found" "a" "l"), []) := by
  refine ⟨(notFound_responses_carry_request_ids [] [] "p1" "e" "o" "a" "l" "n" prodB reqA 5).1 (by decide),
          (notFound_responses_carry_request_ids [] [] "p1" "e" "o" "a" "l" "n" prodB reqA 5).2.1
            (by decide) (by decide) (by decide),
          (notFound_responses_carry_request_ids [] [] "p1" "e" "o" "a" "l" "n" prodB reqA 5).2.2
            (by decide) (by decide) (by decide)⟩

/-- C8: every (resource, httpMethod) pair outside the handled combinations
(GET, POST, DELETE on /orders for the orders handler; GET, POST on
/products and GET, PUT, DELETE on the product id sub-resource for the
products handler) answers 400 with message Bad request. -/
theorem unhandled_route_bad_request
    (pt : List Product) (ot : List Order) (oe : OrdersApiEvent)
    (pe : ProductsApiEvent) (a l newId : String) (now : Int) :
    (¬(oe.resource = "/orders" ∧
        (oe.httpMethod = "GET" ∨ oe.httpMethod = "POST" ∨ oe.httpMethod = "DELETE")) →
      OrdersApi.handler pt ot oe a l newId now =
        (createResponse 400 (.err "Bad request" a l), ot)) ∧
    (¬(pe.resource = "/products" ∧ (pe.httpMethod = "GET" ∨ pe.httpMethod = "POST")) →
     ¬(pe.resource = "/products/{id}" ∧
        (pe.httpMethod = "GET" ∨ pe.httpMethod = "PUT" ∨ pe.httpMethod = "DELETE")) →
      ProductsApi.handler pt pe a l newId =
        (createResponse 400 (.err "Bad request" a l), pt)) := by
  constructor
  · intro h
    by_cases hr : oe.resource = "/orders"
    · have hm1 : oe.httpMethod ≠ "GET" := fun e => h ⟨hr, Or.inl e⟩
      have hm2 : oe.httpMethod ≠ "POST" := fun e => h ⟨hr, Or.inr (Or.inl e)⟩
      have hm3 : oe.httpMethod ≠ "DELETE" := fun e => h ⟨hr, Or.inr (Or.inr e)⟩
      simp [OrdersApi.handler, hr, hm1, hm2, hm3]
    · simp [OrdersApi.handler, hr]
  · intro h1 h2
    by_cases hr1 : pe.resource = "/products"
    · have hm1 : pe.httpMethod ≠ "GET" := fun e => h1 ⟨hr1, Or.inl e⟩
      have hm2 : pe.httpMethod ≠ "POST" := fun e => h1 ⟨hr1, Or.inr e⟩
      simp [ProductsApi.handler, hr1, hm1, hm2]
    · by_cases hr2 : pe.resource = "/products/{id}"
      · have hm1 : pe.httpMethod ≠ "GET" := fun e => h2 ⟨hr2, Or.inl e⟩
        have hm2 : pe.httpMethod ≠ "PUT" := fun e => h2 ⟨hr2, Or.inr (Or.inl e)⟩
        have hm3 : pe.httpMethod ≠ "DELETE" := fun e => h2 ⟨hr2, Or.inr (Or.inr e)⟩
        simp [ProductsApi.handler, hr1, hr2, hm1, hm2, hm3]
      · simp [ProductsApi.handler, hr1, hr2]

/-- Witness for C8: a concrete unknown resource on the orders handler and
an unhandled method on a known resource of the products handler. -/
theorem unhandled_route_bad_request_witness :
    OrdersApi.handler [] [] ⟨"/nope", "GET", reqA, none⟩ "a" "l" "n" 5 =
      (createResponse 400 (.err "Bad request" "a" "l"), []) ∧
    ProductsApi.handler [] ⟨"/products/{id}", "POST", "p1", prodB⟩ "a" "l" "n" =
      (createResponse 400 (.err "Bad request" "a" "l"), []) := by
  exact ⟨(unhandled_route_bad_request [] [] ⟨"/nope", "GET", reqA, none⟩
            ⟨"/products/{id}", "POST", "p1", prodB⟩ "a" "l" "n" 5).1 (by decide),
         (unhandled_route_bad_request [] [] ⟨"/nope", "GET", reqA, none⟩
            ⟨"/products/{id}", "POST", "p1", prodB⟩ "a" "l" "n" 5).2 (by decide) (by decide)⟩
